import Mathlib

/-!
Verification of the Selas path tracer core (Shooty namespace) against its
specification.  Shallow embedding: machine floats are modelled as exact
rationals, external library calls (ray intersection, texture filtering,
BSDF evaluation, square root, the gamma segment of the sRGB conversion)
are supplied as oracle parameters.  Sources embedded here:
`SurfaceParameters.cpp` (surface reconstruction) and `VCM.cpp`
(the vertex-connection-and-merging integrator).
-/

namespace Selas

/-- `float2` from MathLib: a pair of scalars, modelled over `ℚ`. -/
structure Float2 where
  x : ℚ
  y : ℚ
deriving DecidableEq, Repr

instance : Add Float2 := ⟨fun a b => ⟨a.x + b.x, a.y + b.y⟩⟩

instance : Sub Float2 := ⟨fun a b => ⟨a.x - b.x, a.y - b.y⟩⟩

instance : Zero Float2 := ⟨⟨0, 0⟩⟩

instance : SMul ℚ Float2 := ⟨fun q v => ⟨q * v.x, q * v.y⟩⟩

/-- `float3` from MathLib: a 3-vector, modelled over `ℚ`. -/
structure Float3 where
  x : ℚ
  y : ℚ
  z : ℚ
deriving DecidableEq, Repr

instance : Add Float3 := ⟨fun a b => ⟨a.x + b.x, a.y + b.y, a.z + b.z⟩⟩

instance : Sub Float3 := ⟨fun a b => ⟨a.x - b.x, a.y - b.y, a.z - b.z⟩⟩

instance : Neg Float3 := ⟨fun a => ⟨-a.x, -a.y, -a.z⟩⟩

/-- Componentwise product, as `float3 * float3` in MathLib. -/
instance : Mul Float3 := ⟨fun a b => ⟨a.x * b.x, a.y * b.y, a.z * b.z⟩⟩

instance : SMul ℚ Float3 := ⟨fun q v => ⟨q * v.x, q * v.y, q * v.z⟩⟩

instance : Zero Float3 := ⟨⟨0, 0, 0⟩⟩

/-- `float3::One_`. -/
def Float3.one : Float3 := ⟨1, 1, 1⟩

/-- `float3::ZAxis_`. -/
def Float3.zAxis : Float3 := ⟨0, 0, 1⟩

/-- `Dot` from MathLib. -/
def Dot (a b : Float3) : ℚ := a.x * b.x + a.y * b.y + a.z * b.z

/-- `Cross` from MathLib. -/
def Cross (a b : Float3) : Float3 :=
  ⟨a.y * b.z - a.z * b.y, a.z * b.x - a.x * b.z, a.x * b.y - a.y * b.x⟩

/-- `LengthSquared` from MathLib. -/
def LengthSquared (v : Float3) : ℚ := Dot v v

/-- `Math::Absf`. -/
def Absf (q : ℚ) : ℚ := |q|

/-- `Saturate` from MathLib: clamp a scalar to `[0, 1]`. -/
def Saturate (q : ℚ) : ℚ := min 1 (max 0 q)

/-- Modelled from the spec: MathLib's `Normalize` (not under src/) divides a
vector by its length.  The square-root is supplied as an oracle `sqrtf`
because exact rationals have no square root; theorems that depend on the
normalisation only use that `sqrtf` of a positive square is positive. -/
def Normalize (sqrtf : ℚ → ℚ) (v : Float3) : Float3 :=
  (1 / sqrtf (LengthSquared v)) • v

/-- `float3x3` from MathLib, three rows. -/
structure Float3x3 where
  r0 : Float3
  r1 : Float3
  r2 : Float3
deriving DecidableEq, Repr

/-- `MakeFloat3x3(a, b, c)`: rows in argument order. -/
def MakeFloat3x3 (a b c : Float3) : Float3x3 := ⟨a, b, c⟩

/-- `MatrixTranspose` from MathLib. -/
def MatrixTranspose (m : Float3x3) : Float3x3 :=
  ⟨⟨m.r0.x, m.r1.x, m.r2.x⟩, ⟨m.r0.y, m.r1.y, m.r2.y⟩, ⟨m.r0.z, m.r1.z, m.r2.z⟩⟩

/-- `MatrixMultiply(v, m)` from MathLib: row vector times matrix. -/
def MatrixMultiply (v : Float3) (m : Float3x3) : Float3 :=
  v.x • m.r0 + v.y • m.r1 + v.z • m.r2

/-- `float2x2` from MathLib, two rows. -/
structure Float2x2 where
  r0 : Float2
  r1 : Float2
deriving DecidableEq, Repr

/-- Modelled from the spec: `Matrix2x2::SolveLinearSystem` (MathLib, not under
src/) solves the 2×2 linear system `A·x = B`, reporting failure when the
system is singular (zero determinant). -/
def SolveLinearSystem (A : Float2x2) (B : Float2) : Option Float2 :=
  let det := A.r0.x * A.r1.y - A.r0.y * A.r1.x
  if det = 0 then none
  else some ⟨(B.x * A.r1.y - B.y * A.r0.y) / det, (A.r0.x * B.y - A.r1.x * B.x) / det⟩

/-!  ## MIS path state and the per-bounce update rules (VCM.cpp)  -/

/-- `PathState` from the VCM kernel: a subpath extension cursor. -/
structure PathState where
  position : Float3
  direction : Float3
  throughput : Float3
  dVCM : ℚ
  dVC : ℚ
  dVM : ℚ
  pathLength : ℕ
  isAreaMeasure : Bool
deriving DecidableEq, Repr

/-- The material flag bits read by the embedded code (`eTransparent`,
`eHasTextures`, `ePreserveRayDifferentials`). -/
structure MaterialFlags where
  transparent : Bool
  hasTextures : Bool
  preserveRayDifferentials : Bool
deriving DecidableEq, Repr

/-- `SurfaceDifferentials` from GeometryLib. -/
structure SurfaceDifferentials where
  dpdx : Float3
  dpdy : Float3
  duvdx : Float2
  duvdy : Float2
  dndu : Float3
  dndv : Float3
deriving DecidableEq, Repr

/-- `SurfaceDifferentials()` default-initialises every member to zero. -/
instance : Inhabited SurfaceDifferentials := ⟨⟨0, 0, 0, 0, 0, 0⟩⟩

/-- `SurfaceParameters` from SurfaceParameters.h: a fully described shading
point.  The `view` member is read by `ConnectPathVertices`; it is carried
as plain data here. -/
structure SurfaceParameters where
  tangentToWorld : Float3x3
  worldToTangent : Float3x3
  rxOrigin : Float3
  rxDirection : Float3
  ryOrigin : Float3
  ryDirection : Float3
  geometricNormal : Float3
  position : Float3
  error : ℚ
  materialFlags : MaterialFlags
  dpdu : Float3
  dpdv : Float3
  differentials : SurfaceDifferentials
  emissive : Float3
  albedo : Float3
  specularColor : Float3
  roughness : ℚ
  metalness : ℚ
  ior : ℚ
  shader : ℕ
  perturbedNormal : Float3
  view : Float3
deriving DecidableEq, Repr

/-- The at-hit MIS update of the light-subpath loop (VCM.cpp lines 769-778):
`dVCM` is scaled by the squared connection length when `pathLength > 1 ||
isAreaMeasure`, then all three accumulators are multiplied by
`1 / |Dot(surface.perturbedNormal, hit.viewDirection)|`. -/
def LightPathAtHitUpdate (surface : SurfaceParameters) (viewDirection : Float3)
    (state : PathState) : PathState :=
  let connectionLengthSqr := LengthSquared (state.position - surface.position)
  let absDotNL := Absf (Dot surface.perturbedNormal viewDirection)
  let dVCM1 := if 1 < state.pathLength ∨ state.isAreaMeasure = true then
    state.dVCM * connectionLengthSqr else state.dVCM
  { state with
    dVCM := dVCM1 * (1 / absDotNL)
    dVC := state.dVC * (1 / absDotNL)
    dVM := state.dVM * (1 / absDotNL) }

/-- The at-hit MIS update of the camera-subpath loop (VCM.cpp lines 858-865):
`dVCM` is scaled by the squared connection length unconditionally, then all
three accumulators are divided by
`|Dot(surface.geometricNormal, hit.viewDirection)|`. -/
def CameraPathAtHitUpdate (surface : SurfaceParameters) (viewDirection : Float3)
    (state : PathState) : PathState :=
  let connectionLengthSqr := LengthSquared (state.position - surface.position)
  let absDotNL := Absf (Dot surface.geometricNormal viewDirection)
  { state with
    dVCM := state.dVCM * connectionLengthSqr / absDotNL
    dVC := state.dVC / absDotNL
    dVM := state.dVM / absDotNL }

/-- The data produced by the external `SampleBsdfFunction`. -/
structure BsdfSample where
  wi : Float3
  reflectance : Float3
  forwardPdfW : ℚ
  reversePdfW : ℚ
deriving DecidableEq, Repr

/-- `SampleBsdfScattering` (VCM.cpp lines 604-625).  The external
`SampleBsdfFunction` call is supplied as its result: `none` when the sample
fails.  Returns `none` when the sample fails or its reflectance is zero,
otherwise the advanced path state. -/
def SampleBsdfScattering (sample : Option BsdfSample) (surface : SurfaceParameters)
    (vmWeight vcWeight : ℚ) (pathState : PathState) : Option PathState :=
  match sample with
  | none => none
  | some s =>
    if s.reflectance.x = 0 ∧ s.reflectance.y = 0 ∧ s.reflectance.z = 0 then none
    else
      let cosThetaBsdf := Absf (Dot s.wi surface.perturbedNormal)
      some { pathState with
        position := surface.position
        throughput := pathState.throughput * s.reflectance
        dVC := (cosThetaBsdf / s.forwardPdfW) *
          (pathState.dVC * s.reversePdfW + pathState.dVCM + vmWeight)
        dVM := (cosThetaBsdf / s.forwardPdfW) *
          (pathState.dVM * s.reversePdfW + pathState.dVCM * vcWeight + 1)
        dVCM := 1 / s.forwardPdfW
        direction := s.wi
        pathLength := pathState.pathLength + 1 }

/-!  ## Surface parameter reconstruction (SurfaceParameters.cpp)  -/

/-- `VertexAuxiliaryData` from SceneLib: per-vertex position, normal,
tangent, bitangent handedness, uv, material index. -/
structure VertexAuxiliaryData where
  px : ℚ
  py : ℚ
  pz : ℚ
  nx : ℚ
  ny : ℚ
  nz : ℚ
  tx : ℚ
  ty : ℚ
  tz : ℚ
  bh : ℚ
  u : ℚ
  v : ℚ
  materialIndex : ℕ
deriving DecidableEq, Repr

/-- The `Material` members read by `CalculateSurfaceParams`.  Texture indices
are `Option ℕ`: `none` models `InvalidIndex32`. -/
structure Material where
  flags : MaterialFlags
  albedo : Float3
  roughness : ℚ
  metalness : ℚ
  ior : ℚ
  shader : ℕ
  emissiveTextureIndex : Option ℕ
  albedoTextureIndex : Option ℕ
  specularTextureIndex : Option ℕ
  roughnessTextureIndex : Option ℕ
  metalnessTextureIndex : Option ℕ
  normalTextureIndex : Option ℕ
deriving DecidableEq, Repr

/-- The read-only scene tables, with the external texture filters supplied as
lookup oracles (`TextureFiltering::TriangleFloat3`/`TriangleFloat` at level 0
and the EWA variants, all from TextureLib which is not under src/). -/
structure SceneResource where
  indices : ℕ → ℕ
  vertexData : ℕ → VertexAuxiliaryData
  materials : ℕ → Material
  triangleFloat3 : ℕ → Float2 → Float3
  triangleFloat : ℕ → Float2 → ℚ
  ewaFloat3 : ℕ → Float2 → Float2 → Float2 → Float3
  ewaFloat : ℕ → Float2 → Float2 → Float2 → ℚ

/-- `HitParameters`: the ray/triangle intersection record consumed by
surface reconstruction. -/
structure HitParameters where
  position : Float3
  baryCoords : Float2
  primId : ℕ
  error : ℚ
  viewDirection : Float3
  rxOrigin : Float3
  rxDirection : Float3
  ryOrigin : Float3
  ryDirection : Float3
deriving DecidableEq, Repr

/-- The external mathematical routines the reconstruction calls, supplied as
oracles: `sqrtf` backs MathLib's `Normalize`; `srgbGamma` is the gamma
segment of `Math::SrgbToLinearPrecise` (its exponent 2.4 is not rational);
`makeOrthoCS` is GeometryLib's `MakeOrthogonalCoordinateSystem`;
`smallFloatEpsilon` is the `SmallFloatEpsilon_` constant. -/
structure MathEnv where
  sqrtf : ℚ → ℚ
  srgbGamma : ℚ → ℚ
  makeOrthoCS : Float3 → Float3 × Float3
  smallFloatEpsilon : ℚ

/-- Modelled from the spec: `Math::SrgbToLinearPrecise` (MathLib, not under
src/), the precise sRGB-to-linear conversion.  On the linear segment
`c ≤ 0.04045` it is exactly `c / 12.92`; on the gamma segment it is
`((c + 0.055) / 1.055)^2.4`, supplied by the `srgbGamma` oracle because that
power is not rational. -/
def SrgbToLinearPrecise (env : MathEnv) (c : ℚ) : ℚ :=
  if c ≤ 4045 / 100000 then c / (1292 / 100) else env.srgbGamma c

/-- `Math::SrgbToLinearPrecise` on a `float3`, componentwise. -/
def SrgbToLinearPrecise3 (env : MathEnv) (v : Float3) : Float3 :=
  ⟨SrgbToLinearPrecise env v.x, SrgbToLinearPrecise env v.y, SrgbToLinearPrecise env v.z⟩

/-- The compile-time `EnableEWA_` switch (SurfaceParameters.cpp line 16). -/
def EnableEWA : Bool := false

/-- `SampleTextureNormal` (SurfaceParameters.cpp lines 21-37). -/
def SampleTextureNormal (differentials : SurfaceDifferentials) (scene : SceneResource)
    (uvs : Float2) (textureIndex : Option ℕ) (hasDifferentials : Bool) : Float3 :=
  match textureIndex with
  | none => Float3.zAxis
  | some idx =>
    let sample := if EnableEWA && hasDifferentials then
      scene.ewaFloat3 idx uvs differentials.duvdx differentials.duvdy
    else
      scene.triangleFloat3 idx uvs
    (2 : ℚ) • sample - Float3.one

/-- `SampleTextureFloat3` (SurfaceParameters.cpp lines 40-60). -/
def SampleTextureFloat3 (env : MathEnv) (differentials : SurfaceDifferentials)
    (scene : SceneResource) (uvs : Float2) (textureIndex : Option ℕ) (sRGB : Bool)
    (hasDifferentials : Bool) (defaultValue : Float3) : Float3 :=
  match textureIndex with
  | none => defaultValue
  | some idx =>
    let sample := if EnableEWA && hasDifferentials then
      scene.ewaFloat3 idx uvs differentials.duvdx differentials.duvdy
    else
      scene.triangleFloat3 idx uvs
    if sRGB then SrgbToLinearPrecise3 env sample else sample

/-- `SampleTextureFloat` (SurfaceParameters.cpp lines 63-83). -/
def SampleTextureFloat (env : MathEnv) (differentials : SurfaceDifferentials)
    (scene : SceneResource) (uvs : Float2) (textureIndex : Option ℕ) (sRGB : Bool)
    (hasDifferentials : Bool) (defaultValue : ℚ) : ℚ :=
  match textureIndex with
  | none => defaultValue
  | some idx =>
    let sample := if EnableEWA && hasDifferentials then
      scene.ewaFloat idx uvs differentials.duvdx differentials.duvdy
    else
      scene.triangleFloat idx uvs
    if sRGB then SrgbToLinearPrecise env sample else sample

/-- `CalculateSurfaceDifferentials` (SurfaceParameters.cpp lines 86-141).
In exact arithmetic the `IsInf`/`IsNaN` guards on `tx`/`ty` fire exactly
when the corresponding divisor is zero; the failure path resets all
differentials (including `dndu`/`dndv` filled in earlier) to zero, the
success path overwrites only `dpdx`, `dpdy`, `duvdx`, `duvdy`. -/
def CalculateSurfaceDifferentials (hit : HitParameters) (n dpdu dpdv : Float3)
    (current : SurfaceDifferentials) : SurfaceDifferentials :=
  let d := Dot n hit.position
  if Dot n hit.rxDirection = 0 then default
  else if Dot n hit.ryDirection = 0 then default
  else
    let tx := -(Dot n hit.rxOrigin - d) / Dot n hit.rxDirection
    let px := hit.rxOrigin + tx • hit.rxDirection
    let ty := -(Dot n hit.ryOrigin - d) / Dot n hit.ryDirection
    let py := hit.ryOrigin + ty • hit.ryDirection
    let dpdx := px - hit.position
    let dpdy := py - hit.position
    let ABxBy : Float2x2 × Float2 × Float2 :=
      if Absf n.x > Absf n.y ∧ Absf n.x > Absf n.z then
        (⟨⟨dpdu.y, dpdv.y⟩, ⟨dpdu.z, dpdv.z⟩⟩,
         ⟨px.y - hit.position.y, px.z - hit.position.z⟩,
         ⟨py.y - hit.position.y, py.z - hit.position.z⟩)
      else if Absf n.y > Absf n.z then
        (⟨⟨dpdu.x, dpdv.x⟩, ⟨dpdu.z, dpdv.z⟩⟩,
         ⟨px.x - hit.position.x, px.z - hit.position.z⟩,
         ⟨py.x - hit.position.x, py.z - hit.position.z⟩)
      else
        (⟨⟨dpdu.x, dpdv.x⟩, ⟨dpdu.y, dpdv.y⟩⟩,
         ⟨px.x - hit.position.x, px.y - hit.position.y⟩,
         ⟨py.x - hit.position.x, py.y - hit.position.y⟩)
    let duvdx := (SolveLinearSystem ABxBy.1 ABxBy.2.1).getD 0
    let duvdy := (SolveLinearSystem ABxBy.1 ABxBy.2.2).getD 0
    { current with dpdx := dpdx, dpdy := dpdy, duvdx := duvdx, duvdy := duvdy }

/-- `CalculateSurfaceParams` (SurfaceParameters.cpp lines 144-255): turn a
hit into a fully parameterised shading point.  Returns `none` in exactly the
backface-reject case. -/
def CalculateSurfaceParams (env : MathEnv) (scene : SceneResource)
    (hit : HitParameters) : Option SurfaceParameters :=
  let i0 := scene.indices (3 * hit.primId + 0)
  let i1 := scene.indices (3 * hit.primId + 1)
  let i2 := scene.indices (3 * hit.primId + 2)
  let v0 := scene.vertexData i0
  let v1 := scene.vertexData i1
  let v2 := scene.vertexData i2
  let material := scene.materials v0.materialIndex
  let p0 : Float3 := ⟨v0.px, v0.py, v0.pz⟩
  let p1 : Float3 := ⟨v1.px, v1.py, v1.pz⟩
  let p2 : Float3 := ⟨v2.px, v2.py, v2.pz⟩
  let n0 : Float3 := ⟨v0.nx, v0.ny, v0.nz⟩
  let n1 : Float3 := ⟨v1.nx, v1.ny, v1.nz⟩
  let n2 : Float3 := ⟨v2.nx, v2.ny, v2.nz⟩
  let t0 : Float3 := ⟨v0.tx, v0.ty, v0.tz⟩
  let t1 : Float3 := ⟨v1.tx, v1.ty, v1.tz⟩
  let t2 : Float3 := ⟨v2.tx, v2.ty, v2.tz⟩
  let b0 := v0.bh • Cross n0 t0
  let b1 := v1.bh • Cross n1 t1
  let b2 := v2.bh • Cross n2 t2
  let uv0 : Float2 := ⟨v0.u, v0.v⟩
  let uv1 : Float2 := ⟨v1.u, v1.v⟩
  let uv2 : Float2 := ⟨v2.u, v2.v⟩
  let a0 := Saturate (1 - (hit.baryCoords.x + hit.baryCoords.y))
  let a1 := hit.baryCoords.x
  let a2 := hit.baryCoords.y
  let t := Normalize env.sqrtf (a0 • t0 + a1 • t1 + a2 • t2)
  let b := Normalize env.sqrtf (a0 • b0 + a1 • b1 + a2 • b2)
  let n := Normalize env.sqrtf (a0 • n0 + a1 • n1 + a2 • n2)
  if Dot n hit.viewDirection < 0 ∧ material.flags.transparent = false then
    -- hit inside of a non-transparent object: fail the reconstruction
    none
  else
    let rayHasDifferentials : Bool :=
      decide (hit.rxDirection.x ≠ 0) || decide (hit.rxDirection.y ≠ 0)
    let canUseDifferentials : Bool := material.flags.hasTextures && rayHasDifferentials
    let preserveDifferentials : Bool :=
      material.flags.preserveRayDifferentials && rayHasDifferentials
    -- uninitialised in C++ until the differentials block runs; zero here
    let derivs0 : Float3 × Float3 × Float3 × Float3 :=
      if canUseDifferentials || preserveDifferentials then
        let duv02 := uv0 - uv2
        let duv12 := uv1 - uv2
        let determinant := duv02.x * duv12.y - duv02.y * duv12.x
        let degenerateUV : Bool := decide (Absf determinant < env.smallFloatEpsilon)
        let computed : Float3 × Float3 × Float3 × Float3 :=
          if degenerateUV then (0, 0, 0, 0)
          else
            let edge02 := p0 - p2
            let edge12 := p1 - p2
            let dn02 := n0 - n2
            let dn12 := n1 - n2
            let invDet := 1 / determinant
            let dpdu := invDet • (duv12.y • edge02 - duv02.y • edge12)
            let dpdv := invDet • ((-duv12.x) • edge02 + duv02.x • edge12)
            let dndu := if preserveDifferentials then
              invDet • (duv12.y • dn02 - duv02.y • dn12) else 0
            let dndv := if preserveDifferentials then
              invDet • ((-duv12.x) • dn02 + duv02.x • dn12) else 0
            (dpdu, dpdv, dndu, dndv)
        if degenerateUV || decide (LengthSquared (Cross computed.1 computed.2.1) = 0) then
          let cs := env.makeOrthoCS (Normalize env.sqrtf (Cross (p2 - p0) (p1 - p0)))
          (cs.1, cs.2, 0, 0)
        else computed
      else (0, 0, 0, 0)
    let differentials0 : SurfaceDifferentials :=
      { dpdx := 0, dpdy := 0, duvdx := 0, duvdy := 0
        dndu := derivs0.2.2.1, dndv := derivs0.2.2.2 }
    let differentials : SurfaceDifferentials :=
      if canUseDifferentials then
        CalculateSurfaceDifferentials hit n derivs0.1 derivs0.2.1 differentials0
      else differentials0
    let uvs := a0 • uv0 + a1 • uv1 + a2 • uv2
    let emissive := SampleTextureFloat3 env differentials scene uvs
      material.emissiveTextureIndex false rayHasDifferentials 0
    let albedo := material.albedo * SampleTextureFloat3 env differentials scene uvs
      material.albedoTextureIndex false rayHasDifferentials Float3.one
    let specularColor := SampleTextureFloat3 env differentials scene uvs
      material.specularTextureIndex false rayHasDifferentials albedo
    let roughness := material.roughness * SampleTextureFloat env differentials scene uvs
      material.roughnessTextureIndex false rayHasDifferentials 1
    let metalness := material.metalness * SampleTextureFloat env differentials scene uvs
      material.metalnessTextureIndex false rayHasDifferentials 1
    let normalToWorld := MakeFloat3x3 t (-b) n
    let perturbNormal := SampleTextureNormal differentials scene uvs
      material.normalTextureIndex rayHasDifferentials
    some
      { tangentToWorld := MakeFloat3x3 t n b
        worldToTangent := MatrixTranspose (MakeFloat3x3 t n b)
        rxOrigin := hit.rxOrigin
        rxDirection := hit.rxDirection
        ryOrigin := hit.ryOrigin
        ryDirection := hit.ryDirection
        geometricNormal := n
        position := hit.position
        error := hit.error
        materialFlags := material.flags
        dpdu := derivs0.1
        dpdv := derivs0.2.1
        differentials := differentials
        emissive := emissive
        albedo := albedo
        specularColor := specularColor
        roughness := roughness
        metalness := metalness
        ior := material.ior
        shader := material.shader
        perturbedNormal := Normalize env.sqrtf (MatrixMultiply perturbNormal normalToWorld)
        view := 0 }

/-!  ## The VCM kernel (VCM.cpp)  -/

/-- The data produced by the external `EmitIblLightSample`. -/
structure LightEmissionSample where
  position : Float3
  direction : Float3
  radiance : Float3
  emissionPdfW : ℚ
  directionPdfA : ℚ
  cosThetaLight : ℚ
deriving DecidableEq, Repr

/-- `GenerateLightSample` (VCM.cpp lines 448-470): fill the initial light
path state from an IBL emission sample.  `lightSampleWeight` is 1 in the
source; `isAreaMeasure` is 0 because only the (infinite) IBL is sampled. -/
def GenerateLightSample (sample : LightEmissionSample) (vcWeight : ℚ) : PathState :=
  let lightSampleWeight : ℚ := 1
  let emissionPdfW := sample.emissionPdfW * lightSampleWeight
  let directionPdfA := sample.directionPdfA * lightSampleWeight
  let dVC := sample.cosThetaLight / emissionPdfW
  { position := sample.position
    direction := sample.direction
    throughput := (1 / emissionPdfW) • sample.radiance
    dVCM := directionPdfA / emissionPdfW
    dVC := dVC
    dVM := dVC * vcWeight
    pathLength := 1
    isAreaMeasure := false }

/-- The camera members read by `GenerateCameraSample` (`RayCastCameraSettings`). -/
structure CameraSettings where
  position : Float3
  forward : Float3
  imagePlaneDistance : ℚ
  viewportWidth : ℤ
  viewportHeight : ℤ
deriving DecidableEq, Repr

/-- `GenerateCameraSample` (VCM.cpp lines 473-492).  The jittered camera ray
produced by the external `JitteredCameraRay` is supplied as its origin and
direction. -/
def GenerateCameraSample (camera : CameraSettings) (rayOrigin rayDirection : Float3)
    (lightPathCount : ℚ) : PathState :=
  let cosThetaCamera := Dot camera.forward rayDirection
  let imagePointToCameraDistance := camera.imagePlaneDistance / cosThetaCamera
  let imageToSolidAngle :=
    imagePointToCameraDistance * imagePointToCameraDistance / cosThetaCamera
  { position := rayOrigin
    direction := rayDirection
    throughput := Float3.one
    dVCM := lightPathCount / imageToSolidAngle
    dVC := 0
    dVM := 0
    pathLength := 1
    isAreaMeasure := true }

/-- `VcmVertex` (VCM.cpp lines 342-351): a stored light-subpath vertex. -/
structure VcmVertex where
  throughput : Float3
  pathLength : ℕ
  dVCM : ℚ
  dVC : ℚ
  dVM : ℚ
  surface : SurfaceParameters
deriving DecidableEq, Repr

/-- The external results one iteration of the light-subpath loop consumes:
`castSurface` is the composition of the embree ray cast (`RayPick`) and
surface reconstruction — `none` when either fails, which breaks the loop the
same way in the source — and `bsdfSample` is the `SampleBsdfFunction`
result consumed by `SampleBsdfScattering`. -/
structure LightIterOracle where
  castSurface : Option SurfaceParameters
  bsdfSample : Option BsdfSample

/-- The light-subpath loop of `VertexConnectionAndMerging` (VCM.cpp lines
751-816), parameterised by a per-iteration oracle (indexed by remaining
fuel) for the external ray cast / surface reconstruction and BSDF sampling.
`hit.viewDirection = -ray.direction` as set by `RayPick` (line 435).
`ConnectLightPathToCamera` writes only to the image and does not alter the
path state, so it does not appear in the state recursion.  Stored vertices
are appended to `acc`. -/
def LightSubpathLoop (oracle : ℕ → LightIterOracle) (maxPathLength : ℕ)
    (vmWeight vcWeight : ℚ) : ℕ → PathState → List VcmVertex → List VcmVertex
  | 0, _, acc => acc
  | Nat.succ fuel, state, acc =>
    if state.pathLength + 2 < maxPathLength then
      match (oracle (Nat.succ fuel)).castSurface with
      | none => acc
      | some surface =>
        let viewDirection := -state.direction
        let state1 := LightPathAtHitUpdate surface viewDirection state
        let vcmVertex : VcmVertex :=
          { throughput := state1.throughput
            pathLength := state1.pathLength
            dVCM := state1.dVCM
            dVC := state1.dVC
            dVM := state1.dVM
            surface := surface }
        let acc1 := acc ++ [vcmVertex]
        match SampleBsdfScattering (oracle (Nat.succ fuel)).bsdfSample surface
            vmWeight vcWeight state1 with
        | none => acc1
        | some state2 =>
          LightSubpathLoop oracle maxPathLength vmWeight vcWeight fuel state2 acc1
    else acc

/-- The per-scan oracle data of phase 1: the emission sample for
`GenerateLightSample` and the per-iteration loop oracles. -/
structure LightPhaseOracle where
  emission : ℕ → LightEmissionSample
  iter : ℕ → ℕ → LightIterOracle

/-- Phase 1 of `VertexConnectionAndMerging` (VCM.cpp lines 745-819): run one
light subpath per scan index, appending its vertices to `pathVertices` and
recording the exclusive end index in `pathEnds` after each subpath.  Returns
`(pathVertices, pathEnds)` after `n` scans.  The loop fuel `maxPathLength`
dominates the iteration count since `pathLength` starts at 1 and strictly
increases. -/
def LightPhase (oracle : LightPhaseOracle) (maxPathLength : ℕ)
    (vmWeight vcWeight : ℚ) : ℕ → List VcmVertex × List ℕ
  | 0 => ([], [])
  | Nat.succ n =>
    let prev := LightPhase oracle maxPathLength vmWeight vcWeight n
    let state := GenerateLightSample (oracle.emission n) vcWeight
    let vertices1 :=
      LightSubpathLoop (oracle.iter n) maxPathLength vmWeight vcWeight
        maxPathLength state prev.1
    (vertices1, prev.2 ++ [vertices1.length])

/-- The external results one iteration of the camera-subpath loop consumes,
mirroring `LightIterOracle`. -/
structure CameraIterOracle where
  castSurface : Option SurfaceParameters
  bsdfSample : Option BsdfSample

/-- The path-state evolution of the camera-subpath loop of
`VertexConnectionAndMerging` (VCM.cpp lines 837-906).  The sky connection,
light connection, vertex connection and vertex merging accumulate colour
only and never feed back into the path state, so the walk returns the final
path state; `hit.viewDirection = -ray.direction` as set by `RayPick`. -/
def CameraSubpathWalk (oracle : ℕ → CameraIterOracle) (maxPathLength : ℕ)
    (vmWeight vcWeight : ℚ) : ℕ → PathState → PathState
  | 0, state => state
  | Nat.succ fuel, state =>
    if state.pathLength < maxPathLength then
      match (oracle (Nat.succ fuel)).castSurface with
      | none => state
      | some surface =>
        let viewDirection := -state.direction
        let state1 := CameraPathAtHitUpdate surface viewDirection state
        match SampleBsdfScattering (oracle (Nat.succ fuel)).bsdfSample surface
            vmWeight vcWeight state1 with
        | none => state1
        | some state2 =>
          CameraSubpathWalk oracle maxPathLength vmWeight vcWeight fuel state2
    else state

/-- The result triple of the external `EvaluateBsdf`. -/
structure BsdfEval where
  bsdf : Float3
  forwardPdfW : ℚ
  reversePdfW : ℚ
deriving DecidableEq, Repr

/-- The geometry term computed by `ConnectPathVertices` (VCM.cpp lines
630-652): both cosine factors are absolute values and the denominator is the
squared distance. -/
def ConnectionGeometryTerm (sqrtf : ℚ → ℚ) (surface : SurfaceParameters)
    (lightVertex : VcmVertex) : ℚ :=
  let direction0 := lightVertex.surface.position - surface.position
  let distanceSquared := LengthSquared direction0
  let distance := sqrtf distanceSquared
  let direction := (1 / distance) • direction0
  let cosThetaCamera := Absf (Dot direction surface.perturbedNormal)
  let cosThetaLight := Absf (Dot (-direction) lightVertex.surface.perturbedNormal)
  cosThetaLight * cosThetaCamera / distanceSquared

/-- `ConnectPathVertices` (VCM.cpp lines 628-677).  The two `EvaluateBsdf`
calls and the occlusion ray are external and supplied as oracles; `sqrtf`
backs `Math::Sqrtf`. -/
def ConnectPathVertices (sqrtf : ℚ → ℚ)
    (evaluateBsdf : SurfaceParameters → Float3 → Float3 → BsdfEval)
    (vcOcclusion : SurfaceParameters → Float3 → ℚ → Bool)
    (surface : SurfaceParameters) (cameraState : PathState)
    (lightVertex : VcmVertex) (vmWeight : ℚ) : Float3 :=
  let direction0 := lightVertex.surface.position - surface.position
  let distanceSquared := LengthSquared direction0
  let distance := sqrtf distanceSquared
  let direction := (1 / distance) • direction0
  let cameraEval := evaluateBsdf surface (-cameraState.direction) direction
  if cameraEval.bsdf.x = 0 ∧ cameraEval.bsdf.y = 0 ∧ cameraEval.bsdf.z = 0 then 0
  else
    let lightEval := evaluateBsdf lightVertex.surface (-direction) lightVertex.surface.view
    if lightEval.bsdf.x = 0 ∧ lightEval.bsdf.y = 0 ∧ lightEval.bsdf.z = 0 then 0
    else
      let cosThetaCamera := Absf (Dot direction surface.perturbedNormal)
      let cosThetaLight := Absf (Dot (-direction) lightVertex.surface.perturbedNormal)
      let geometryTerm := cosThetaLight * cosThetaCamera / distanceSquared
      if geometryTerm < 0 then 0
      else
        let cameraBsdfPdfA := cameraEval.forwardPdfW * Absf cosThetaLight / distanceSquared
        let lightBsdfPdfA := lightEval.forwardPdfW * Absf cosThetaCamera / distanceSquared
        let lightWeight := cameraBsdfPdfA *
          (vmWeight + lightVertex.dVCM + lightVertex.dVC * lightEval.reversePdfW)
        let cameraWeight := lightBsdfPdfA *
          (vmWeight + cameraState.dVCM + cameraState.dVC * cameraEval.reversePdfW)
        let misWeight := 1 / (lightWeight + 1 + cameraWeight)
        let pathContribution := (misWeight * geometryTerm) • (cameraEval.bsdf * lightEval.bsdf)
        if pathContribution.x = 0 ∧ pathContribution.y = 0 ∧ pathContribution.z = 0 then 0
        else if vcOcclusion surface direction distance then pathContribution else 0

/-- `ConnectPathVertices` with the negative-geometry-term branch removed;
compared with `ConnectPathVertices` to show that branch is unreachable. -/
def ConnectPathVerticesNoGeomBranch (sqrtf : ℚ → ℚ)
    (evaluateBsdf : SurfaceParameters → Float3 → Float3 → BsdfEval)
    (vcOcclusion : SurfaceParameters → Float3 → ℚ → Bool)
    (surface : SurfaceParameters) (cameraState : PathState)
    (lightVertex : VcmVertex) (vmWeight : ℚ) : Float3 :=
  let direction0 := lightVertex.surface.position - surface.position
  let distanceSquared := LengthSquared direction0
  let distance := sqrtf distanceSquared
  let direction := (1 / distance) • direction0
  let cameraEval := evaluateBsdf surface (-cameraState.direction) direction
  if cameraEval.bsdf.x = 0 ∧ cameraEval.bsdf.y = 0 ∧ cameraEval.bsdf.z = 0 then 0
  else
    let lightEval := evaluateBsdf lightVertex.surface (-direction) lightVertex.surface.view
    if lightEval.bsdf.x = 0 ∧ lightEval.bsdf.y = 0 ∧ lightEval.bsdf.z = 0 then 0
    else
      let cosThetaCamera := Absf (Dot direction surface.perturbedNormal)
      let cosThetaLight := Absf (Dot (-direction) lightVertex.surface.perturbedNormal)
      let geometryTerm := cosThetaLight * cosThetaCamera / distanceSquared
      let cameraBsdfPdfA := cameraEval.forwardPdfW * Absf cosThetaLight / distanceSquared
      let lightBsdfPdfA := lightEval.forwardPdfW * Absf cosThetaCamera / distanceSquared
      let lightWeight := cameraBsdfPdfA *
        (vmWeight + lightVertex.dVCM + lightVertex.dVC * lightEval.reversePdfW)
      let cameraWeight := lightBsdfPdfA *
        (vmWeight + cameraState.dVCM + cameraState.dVC * cameraEval.reversePdfW)
      let misWeight := 1 / (lightWeight + 1 + cameraWeight)
      let pathContribution := (misWeight * geometryTerm) • (cameraEval.bsdf * lightEval.bsdf)
      if pathContribution.x = 0 ∧ pathContribution.y = 0 ∧ pathContribution.z = 0 then 0
      else if vcOcclusion surface direction distance then pathContribution else 0

/-- `VcmRadiusFactor_` (VCM.cpp line 311). -/
def VcmRadiusFactor : ℚ := 5 / 1000

/-- `VcmRadiusAlpha_` (VCM.cpp line 312). -/
def VcmRadiusAlpha : ℚ := 3 / 4

/-- The initial VCM radius set up by `GenerateImage` (VCM.cpp line 1016):
`VcmRadiusFactor_ * sceneData->boundingSphere.w`. -/
def IntegratorVcmRadius (boundingSphereW : ℚ) : ℚ := VcmRadiusFactor * boundingSphereW

/-- The per-pass kernel radius computed by `VCMKernel` (VCM.cpp line 949):
`vcmRadius / Powf(iterationIndex, 0.5 * (1 - vcmRadiusAlpha))`.  The
external `Math::Powf` is supplied as the oracle `powf`. -/
def VcmKernelRadius (powf : ℚ → ℚ → ℚ) (vcmRadius iterationIndex : ℚ) : ℚ :=
  vcmRadius / powf iterationIndex (1 / 2 * (1 - VcmRadiusAlpha))

/-- `OffsetRayOrigin` (SurfaceParameters.cpp lines 258-263). -/
def OffsetRayOrigin (surface : SurfaceParameters) (direction : Float3)
    (biasScale : ℚ) : Float3 :=
  let offsetDirection : ℚ :=
    if Dot direction surface.geometricNormal < 0 then -1 else 1
  let offset := (offsetDirection * surface.error * biasScale) • surface.geometricNormal
  surface.position + offset

/-!  ## Named sub-expressions of `CalculateSurfaceParams` for theorem statements -/

/-- The material `CalculateSurfaceParams` resolves for a hit: the material of
the first vertex of the hit triangle. -/
def HitMaterial (scene : SceneResource) (hit : HitParameters) : Material :=
  scene.materials (scene.vertexData (scene.indices (3 * hit.primId + 0))).materialIndex

/-- The interpolated, normalised shading normal computed by
`CalculateSurfaceParams` before the backface test. -/
def InterpolatedShadingNormal (env : MathEnv) (scene : SceneResource)
    (hit : HitParameters) : Float3 :=
  let v0 := scene.vertexData (scene.indices (3 * hit.primId + 0))
  let v1 := scene.vertexData (scene.indices (3 * hit.primId + 1))
  let v2 := scene.vertexData (scene.indices (3 * hit.primId + 2))
  let n0 : Float3 := ⟨v0.nx, v0.ny, v0.nz⟩
  let n1 : Float3 := ⟨v1.nx, v1.ny, v1.nz⟩
  let n2 : Float3 := ⟨v2.nx, v2.ny, v2.nz⟩
  let a0 := Saturate (1 - (hit.baryCoords.x + hit.baryCoords.y))
  Normalize env.sqrtf (a0 • n0 + hit.baryCoords.x • n1 + hit.baryCoords.y • n2)

/-- The interpolated texture coordinates computed by `CalculateSurfaceParams`. -/
def InterpolatedUV (scene : SceneResource) (hit : HitParameters) : Float2 :=
  let v0 := scene.vertexData (scene.indices (3 * hit.primId + 0))
  let v1 := scene.vertexData (scene.indices (3 * hit.primId + 1))
  let v2 := scene.vertexData (scene.indices (3 * hit.primId + 2))
  let a0 := Saturate (1 - (hit.baryCoords.x + hit.baryCoords.y))
  a0 • (⟨v0.u, v0.v⟩ : Float2) + hit.baryCoords.x • (⟨v1.u, v1.v⟩ : Float2) +
    hit.baryCoords.y • (⟨v2.u, v2.v⟩ : Float2)

/-!  ## Spec-side comparison definitions  -/

/-- The at-hit MIS update exactly as claim C1 words it: `dVCM` is scaled by
the squared segment length exactly when the segment is not the first one of
the subpath or the source was NOT an area measure, and all three
accumulators are then divided by the cosine against the SHADING normal.
Written from the claim, to be compared with the source-derived updates. -/
def SpecC1AtHitUpdate (surface : SurfaceParameters) (viewDirection : Float3)
    (state : PathState) : PathState :=
  let lsq := LengthSquared (state.position - surface.position)
  let c := Absf (Dot surface.perturbedNormal viewDirection)
  let dVCM1 := if 1 < state.pathLength ∨ state.isAreaMeasure = false then
    state.dVCM * lsq else state.dVCM
  { state with dVCM := dVCM1 / c, dVC := state.dVC / c, dVM := state.dVM / c }

/-- The amended at-hit MIS update: `dVCM` is scaled by the squared segment
length exactly when the segment is not the first one of the subpath or the
source WAS an area measure; all three accumulators are then divided by the
cosine against `misNormal` — the perturbed (shading) normal on the light
subpath and the geometric normal on the camera subpath. -/
def SpecC1AmendedUpdate (misNormal surfacePosition viewDirection : Float3)
    (state : PathState) : PathState :=
  let lsq := LengthSquared (state.position - surfacePosition)
  let c := Absf (Dot misNormal viewDirection)
  let dVCM1 := if 1 < state.pathLength ∨ state.isAreaMeasure = true then
    state.dVCM * lsq else state.dVCM
  { state with dVCM := dVCM1 / c, dVC := state.dVC / c, dVM := state.dVM / c }

/-!  ## Concrete data for witnesses and counterexamples  -/

/-- A concrete shading point used to instantiate witnesses. -/
def demoSurface : SurfaceParameters :=
  { tangentToWorld := ⟨⟨1, 0, 0⟩, ⟨0, 1, 0⟩, ⟨0, 0, -1⟩⟩
    worldToTangent := ⟨⟨1, 0, 0⟩, ⟨0, 1, 0⟩, ⟨0, 0, -1⟩⟩
    rxOrigin := 0
    rxDirection := 0
    ryOrigin := 0
    ryDirection := 0
    geometricNormal := ⟨0, 1, 0⟩
    position := ⟨0, 0, 0⟩
    error := 1 / 10
    materialFlags := ⟨false, false, false⟩
    dpdu := 0
    dpdv := 0
    differentials := default
    emissive := 0
    albedo := Float3.one
    specularColor := Float3.one
    roughness := 1
    metalness := 0
    ior := 1
    shader := 0
    perturbedNormal := ⟨0, 1, 0⟩
    view := ⟨0, 1, 0⟩ }

/-- A shading point whose perturbed and geometric normals give different
cosines, exhibiting the camera-side normal choice. -/
def demoSurfaceSkewNormal : SurfaceParameters :=
  { demoSurface with
    position := ⟨2, 0, 0⟩
    geometricNormal := ⟨0, 1, 0⟩
    perturbedNormal := ⟨0, 1 / 2, 0⟩ }

/-- A shading point two units from the origin whose perturbed normal is the
segment direction, as a first light-path hit. -/
def demoSurfaceFirstHit : SurfaceParameters :=
  { demoSurface with
    position := ⟨2, 0, 0⟩
    perturbedNormal := ⟨1, 0, 0⟩ }

/-- A first-segment light path state sourced from the IBL (`isAreaMeasure =
false`), as `GenerateLightSample` produces. -/
def demoLightState : PathState :=
  { position := ⟨0, 0, 0⟩
    direction := ⟨1, 0, 0⟩
    throughput := Float3.one
    dVCM := 1
    dVC := 1
    dVM := 1
    pathLength := 1
    isAreaMeasure := false }

/-- A first-segment camera path state (`isAreaMeasure = true`), as
`GenerateCameraSample` produces. -/
def demoCameraState : PathState :=
  { demoLightState with dVC := 1, isAreaMeasure := true }

/-- A concrete light-subpath vertex at distance 2 from `demoSurface`. -/
def demoLightVertex : VcmVertex :=
  { throughput := Float3.one
    pathLength := 1
    dVCM := 1
    dVC := 1
    dVM := 1
    surface := demoSurfaceSkewNormal }

/-- A concrete BSDF sample. -/
def demoBsdfSample : BsdfSample :=
  { wi := ⟨0, 1, 0⟩
    reflectance := ⟨1 / 2, 1 / 2, 1 / 2⟩
    forwardPdfW := 2
    reversePdfW := 3 }

/-- The path state advanced from `demoLightState` by the concrete BSDF
sample, for witnesses. -/
def demoScattered : PathState :=
  (SampleBsdfScattering (some demoBsdfSample) demoSurface 1 1 demoLightState).getD
    demoLightState

/-- A square-root oracle exact on the inputs the concrete scenes produce
(every normalised vector there has squared length 1). -/
def demoSqrt (q : ℚ) : ℚ := if q = 1 then 1 else 0

/-- A concrete math environment for the surface-reconstruction witnesses. -/
def demoEnv : MathEnv :=
  { sqrtf := demoSqrt
    srgbGamma := fun c => c
    makeOrthoCS := fun _ => (0, 0)
    smallFloatEpsilon := 1 / 1000000 }

/-- The vertex datum shared by all three corners of the concrete triangle:
position at the origin, normal `(0,1,0)`, tangent `(1,0,0)`, handedness 1,
uv `(0,0)`. -/
def demoVertexData : VertexAuxiliaryData :=
  { px := 0, py := 0, pz := 0
    nx := 0, ny := 1, nz := 0
    tx := 1, ty := 0, tz := 0
    bh := 1
    u := 0, v := 0
    materialIndex := 0 }

/-- A concrete material with an albedo texture present and unit base albedo. -/
def demoMaterial : Material :=
  { flags := ⟨false, false, false⟩
    albedo := Float3.one
    roughness := 1
    metalness := 1
    ior := 1
    shader := 0
    emissiveTextureIndex := none
    albedoTextureIndex := some 0
    specularTextureIndex := none
    roughnessTextureIndex := none
    metalnessTextureIndex := none
    normalTextureIndex := none }

/-- A concrete one-triangle scene whose albedo texture samples to `0.04` in
every channel (inside the linear segment of the sRGB conversion). -/
def demoScene : SceneResource :=
  { indices := fun _ => 0
    vertexData := fun _ => demoVertexData
    materials := fun _ => demoMaterial
    triangleFloat3 := fun _ _ => ⟨1 / 25, 1 / 25, 1 / 25⟩
    triangleFloat := fun _ _ => 1
    ewaFloat3 := fun _ _ _ _ => 0
    ewaFloat := fun _ _ _ _ => 0 }

/-- A concrete frontface hit on the triangle of `demoScene`, with no ray
differentials. -/
def demoHit : HitParameters :=
  { position := ⟨0, 0, 0⟩
    baryCoords := ⟨0, 0⟩
    primId := 0
    error := 1 / 10
    viewDirection := ⟨0, 1, 0⟩
    rxOrigin := 0
    rxDirection := 0
    ryOrigin := 0
    ryDirection := 0 }

/-- The reconstructed surface of the concrete hit, for witnesses. -/
def demoReconstructed : SurfaceParameters :=
  (CalculateSurfaceParams demoEnv demoScene demoHit).getD demoSurface

/-- A concrete phase-1 oracle: every cast lands on `demoSurface` and the
first BSDF sample fails, so each subpath stores exactly one vertex. -/
def demoLightPhaseOracle : LightPhaseOracle :=
  { emission := fun _ =>
      { position := ⟨0, 0, 0⟩
        direction := ⟨1, 0, 0⟩
        radiance := Float3.one
        emissionPdfW := 1
        directionPdfA := 1
        cosThetaLight := 1 }
    iter := fun _ _ => ⟨some demoSurface, none⟩ }

/-- The single vertex stored by `demoLightPhaseOracle` in a one-scan pass
with `maxPathLength = 10`. -/
def demoStoredVertex : VcmVertex :=
  ((LightPhase demoLightPhaseOracle 10 1 1 1).1).getD 0 demoLightVertex

/-!  ## Basic component lemmas  -/

theorem Float3.add_def (a b : Float3) : a + b = ⟨a.x + b.x, a.y + b.y, a.z + b.z⟩ := rfl

theorem Float3.sub_def (a b : Float3) : a - b = ⟨a.x - b.x, a.y - b.y, a.z - b.z⟩ := rfl

theorem Float3.smul_def (q : ℚ) (v : Float3) : q • v = ⟨q * v.x, q * v.y, q * v.z⟩ := rfl

theorem Absf_nonneg (q : ℚ) : 0 ≤ Absf q := abs_nonneg q

theorem LengthSquared_nonneg (v : Float3) : 0 ≤ LengthSquared v := by
  unfold LengthSquared Dot
  have hx := mul_self_nonneg v.x
  have hy := mul_self_nonneg v.y
  have hz := mul_self_nonneg v.z
  linarith

/-!  ## Claim C3 — the after-scatter MIS update  -/

/-- Claim C3: after every successful BSDF scattering step with forward pdf
`p_fw`, reverse pdf `p_rv` and `cosθ_b = |Dot(wi, n_shading)|`, the path
state is updated as `dVC ← (cosθ_b/p_fw)·(dVC·p_rv + dVCM + vmWeight)`,
`dVM ← (cosθ_b/p_fw)·(dVM·p_rv + dVCM·vcWeight + 1)`, `dVCM ← 1/p_fw`, the
throughput is multiplied by the sample reflectance, and `pathLength` is
incremented by one. -/
theorem sampleBsdfScattering_updates (s : BsdfSample) (surface : SurfaceParameters)
    (vmWeight vcWeight : ℚ) (ps ps' : PathState)
    (h : SampleBsdfScattering (some s) surface vmWeight vcWeight ps = some ps') :
    ps'.dVC = (Absf (Dot s.wi surface.perturbedNormal) / s.forwardPdfW) *
        (ps.dVC * s.reversePdfW + ps.dVCM + vmWeight) ∧
    ps'.dVM = (Absf (Dot s.wi surface.perturbedNormal) / s.forwardPdfW) *
        (ps.dVM * s.reversePdfW + ps.dVCM * vcWeight + 1) ∧
    ps'.dVCM = 1 / s.forwardPdfW ∧
    ps'.throughput = ps.throughput * s.reflectance ∧
    ps'.pathLength = ps.pathLength + 1 := by
  simp only [SampleBsdfScattering] at h
  split at h
  · exact absurd h (by simp)
  · rw [Option.some_inj] at h
    subst h
    exact ⟨rfl, rfl, rfl, rfl, rfl⟩

/-- Witness for C3 at a concrete scattering step. -/
theorem sampleBsdfScattering_updates_witness :
    demoScattered.dVC = (Absf (Dot demoBsdfSample.wi demoSurface.perturbedNormal) /
        demoBsdfSample.forwardPdfW) *
        (demoLightState.dVC * demoBsdfSample.reversePdfW + demoLightState.dVCM + 1) ∧
    demoScattered.dVM = (Absf (Dot demoBsdfSample.wi demoSurface.perturbedNormal) /
        demoBsdfSample.forwardPdfW) *
        (demoLightState.dVM * demoBsdfSample.reversePdfW + demoLightState.dVCM * 1 + 1) ∧
    demoScattered.dVCM = 1 / demoBsdfSample.forwardPdfW ∧
    demoScattered.throughput = demoLightState.throughput * demoBsdfSample.reflectance ∧
    demoScattered.pathLength = demoLightState.pathLength + 1 :=
  sampleBsdfScattering_updates demoBsdfSample demoSurface 1 1 demoLightState
    demoScattered (by with_unfolding_all rfl)

/-!  ## Claim C1 — the at-hit MIS update  -/

/-- Counterexample to claim C1 as stated.  First light-path hit
(`pathLength = 1`, `isAreaMeasure = false`, segment length 2): the claim's
condition "not the first segment, or the source was not an area measure"
says `dVCM` is scaled by `L² = 4`, the code does not scale it.  First
camera-path hit with a perturbed normal whose cosine is `1/2`: the claim
divides by the shading-normal cosine, the code divides by the
geometric-normal cosine (and scales `dVCM` by `L²`, which the claim's
condition forbids for an area-measure source on its first segment). -/
theorem specC1AtHitUpdate_counterexample :
    LightPathAtHitUpdate demoSurfaceFirstHit ⟨-1, 0, 0⟩ demoLightState ≠
      SpecC1AtHitUpdate demoSurfaceFirstHit ⟨-1, 0, 0⟩ demoLightState ∧
    CameraPathAtHitUpdate demoSurfaceSkewNormal ⟨0, 1, 0⟩ demoCameraState ≠
      SpecC1AtHitUpdate demoSurfaceSkewNormal ⟨0, 1, 0⟩ demoCameraState := by
  with_unfolding_all decide

/-- Claim C1 (amended): at every new hit, `dVCM` is multiplied by the squared
segment length exactly when the segment is not the first one of the subpath
or the subpath's source WAS an area measure; after that `dVCM`, `dVC` and
`dVM` are each divided by `|cosθ|`, where the cosine uses the perturbed
(shading) normal on the light subpath and the geometric normal on the camera
subpath (whose source is always an area measure). -/
theorem atHitUpdate_amended (surface : SurfaceParameters) (viewDirection : Float3)
    (st : PathState) :
    LightPathAtHitUpdate surface viewDirection st =
      SpecC1AmendedUpdate surface.perturbedNormal surface.position viewDirection st ∧
    (st.isAreaMeasure = true →
      CameraPathAtHitUpdate surface viewDirection st =
        SpecC1AmendedUpdate surface.geometricNormal surface.position viewDirection st) := by
  constructor
  · unfold LightPathAtHitUpdate SpecC1AmendedUpdate
    simp only [mul_one_div]
  · intro h
    unfold CameraPathAtHitUpdate SpecC1AmendedUpdate
    simp [h]

/-- Witness for the amended claim C1 at a concrete camera-path hit. -/
theorem atHitUpdate_amended_witness :
    CameraPathAtHitUpdate demoSurfaceSkewNormal ⟨0, 1, 0⟩ demoCameraState =
      SpecC1AmendedUpdate demoSurfaceSkewNormal.geometricNormal
        demoSurfaceSkewNormal.position ⟨0, 1, 0⟩ demoCameraState :=
  (atHitUpdate_amended demoSurfaceSkewNormal ⟨0, 1, 0⟩ demoCameraState).2 rfl

/-!  ## Claim C5 — at-hit cosine-normal asymmetry  -/

/-- Claim C5: the at-hit MIS update's cosine divisor uses the perturbed
(shading) normal on the light subpath and the geometric normal on the camera
subpath, for all three accumulators, at every bounce of both phases. -/
theorem atHit_normal_asymmetry (surface : SurfaceParameters) (viewDirection : Float3)
    (st : PathState) :
    ((LightPathAtHitUpdate surface viewDirection st).dVCM =
      (if 1 < st.pathLength ∨ st.isAreaMeasure = true then
        st.dVCM * LengthSquared (st.position - surface.position) else st.dVCM) *
        (1 / Absf (Dot surface.perturbedNormal viewDirection)) ∧
     (LightPathAtHitUpdate surface viewDirection st).dVC =
      st.dVC * (1 / Absf (Dot surface.perturbedNormal viewDirection)) ∧
     (LightPathAtHitUpdate surface viewDirection st).dVM =
      st.dVM * (1 / Absf (Dot surface.perturbedNormal viewDirection))) ∧
    ((CameraPathAtHitUpdate surface viewDirection st).dVCM =
      st.dVCM * LengthSquared (st.position - surface.position) /
        Absf (Dot surface.geometricNormal viewDirection) ∧
     (CameraPathAtHitUpdate surface viewDirection st).dVC =
      st.dVC / Absf (Dot surface.geometricNormal viewDirection) ∧
     (CameraPathAtHitUpdate surface viewDirection st).dVM =
      st.dVM / Absf (Dot surface.geometricNormal viewDirection)) :=
  ⟨⟨rfl, rfl, rfl⟩, ⟨rfl, rfl, rfl⟩⟩

/-!  ## Claim C9 — the geometry term of vertex connection is never negative -/

/-- Claim C9: in `ConnectPathVertices` the geometry term
`cosθ_light · cosθ_camera / distance²` is non-negative for every pair of
camera and light vertices, so the branch discarding a connection for a
negative geometry term is unreachable: removing it does not change the
function. -/
theorem connectPathVertices_geometryTerm_nonneg (sqrtf : ℚ → ℚ)
    (evaluateBsdf : SurfaceParameters → Float3 → Float3 → BsdfEval)
    (vcOcclusion : SurfaceParameters → Float3 → ℚ → Bool)
    (surface : SurfaceParameters) (cameraState : PathState)
    (lightVertex : VcmVertex) (vmWeight : ℚ) :
    0 ≤ ConnectionGeometryTerm sqrtf surface lightVertex ∧
    ConnectPathVertices sqrtf evaluateBsdf vcOcclusion surface cameraState
        lightVertex vmWeight =
      ConnectPathVerticesNoGeomBranch sqrtf evaluateBsdf vcOcclusion surface
        cameraState lightVertex vmWeight := by
  constructor
  · unfold ConnectionGeometryTerm
    exact div_nonneg (mul_nonneg (Absf_nonneg _) (Absf_nonneg _)) (LengthSquared_nonneg _)
  · simp only [ConnectPathVertices, ConnectPathVerticesNoGeomBranch]
    split_ifs with h1 h2 h3 <;> try rfl
    exact absurd h3 (not_lt.mpr (div_nonneg (mul_nonneg (Absf_nonneg _) (Absf_nonneg _))
      (LengthSquared_nonneg _)))

/-!  ## Claim C10 — `OffsetRayOrigin`  -/

/-- Claim C10: `OffsetRayOrigin` returns
`position + s · error · biasScale · geometricNormal` with `s = -1` when
`Dot(direction, geometricNormal) < 0` and `s = +1` otherwise; the offset
point lies on the side of the geometric normal the direction points toward,
at distance `error · biasScale` when the geometric normal is unit length;
and only the `position`, `error` and `geometricNormal` fields are read. -/
theorem offsetRayOrigin_spec (surface : SurfaceParameters) (direction : Float3)
    (biasScale : ℚ) (hn : LengthSquared surface.geometricNormal = 1) :
    OffsetRayOrigin surface direction biasScale =
      surface.position +
        ((if Dot direction surface.geometricNormal < 0 then (-1 : ℚ) else 1) *
          surface.error * biasScale) • surface.geometricNormal ∧
    0 ≤ (if Dot direction surface.geometricNormal < 0 then (-1 : ℚ) else 1) *
          Dot direction surface.geometricNormal ∧
    LengthSquared (OffsetRayOrigin surface direction biasScale - surface.position) =
      (surface.error * biasScale) ^ 2 ∧
    ∀ s2 : SurfaceParameters, s2.position = surface.position →
      s2.error = surface.error → s2.geometricNormal = surface.geometricNormal →
      OffsetRayOrigin s2 direction biasScale = OffsetRayOrigin surface direction biasScale := by
  refine ⟨rfl, ?_, ?_, ?_⟩
  · split_ifs with h
    · nlinarith
    · exact mul_nonneg zero_le_one (not_lt.mp h)
  · unfold LengthSquared Dot at hn ⊢
    unfold OffsetRayOrigin
    simp only [Float3.add_def, Float3.sub_def, Float3.smul_def]
    split_ifs <;> linear_combination (surface.error ^ 2 * biasScale ^ 2) * hn
  · intro s2 h1 h2 h3
    unfold OffsetRayOrigin
    rw [h1, h2, h3]

/-- Witness for C10 at a concrete surface with unit geometric normal. -/
theorem offsetRayOrigin_spec_witness :
    OffsetRayOrigin demoSurface ⟨0, 1, 0⟩ (1 / 10) =
      demoSurface.position +
        ((if Dot ⟨0, 1, 0⟩ demoSurface.geometricNormal < 0 then (-1 : ℚ) else 1) *
          demoSurface.error * (1 / 10)) • demoSurface.geometricNormal ∧
    LengthSquared (OffsetRayOrigin demoSurface ⟨0, 1, 0⟩ (1 / 10) - demoSurface.position) =
      (demoSurface.error * (1 / 10)) ^ 2 :=
  ⟨(offsetRayOrigin_spec demoSurface ⟨0, 1, 0⟩ (1 / 10) (by with_unfolding_all rfl)).1,
   (offsetRayOrigin_spec demoSurface ⟨0, 1, 0⟩ (1 / 10) (by with_unfolding_all rfl)).2.2.1⟩

/-!  ## Claim C8 — the kernel radius schedule  -/

/-- Claim C8: the per-pass kernel radius follows
`r_k = r_0 / k^(0.5·(1−α))` with `α = 0.75` and
`r_0 = 0.005 · sceneBoundingSphereRadius`, and for every pass index `k ≥ 1`,
`r_k ≤ r_0` and `r_k` is non-increasing in `k`.  The external `Math::Powf`
oracle is assumed to be at least 1 and monotone on bases `≥ 1` at the fixed
exponent `1/8 = 0.5·(1−0.75)`. -/
theorem vcmKernelRadius_schedule (powf : ℚ → ℚ → ℚ)
    (hpow1 : ∀ x : ℚ, 1 ≤ x → 1 ≤ powf x (1 / 8))
    (hpowMono : ∀ x y : ℚ, 1 ≤ x → x ≤ y → powf x (1 / 8) ≤ powf y (1 / 8))
    (boundingSphereW r0 : ℚ) (hw : 0 ≤ boundingSphereW)
    (hr0 : r0 = IntegratorVcmRadius boundingSphereW) :
    r0 = 5 / 1000 * boundingSphereW ∧
    (∀ k : ℕ, 1 ≤ k → VcmKernelRadius powf r0 (k : ℚ) ≤ r0) ∧
    (∀ k j : ℕ, 1 ≤ k → k ≤ j →
      VcmKernelRadius powf r0 (j : ℚ) ≤ VcmKernelRadius powf r0 (k : ℚ)) := by
  have hexp : (1 / 2 * (1 - VcmRadiusAlpha) : ℚ) = 1 / 8 := by
    norm_num [VcmRadiusAlpha]
  have hr0w : r0 = 5 / 1000 * boundingSphereW := by
    rw [hr0]; unfold IntegratorVcmRadius VcmRadiusFactor; ring
  have hr0nonneg : 0 ≤ r0 := by
    rw [hr0w]; positivity
  refine ⟨hr0w, ?_, ?_⟩
  · intro k hk
    unfold VcmKernelRadius
    rw [hexp]
    have hk1 : (1 : ℚ) ≤ (k : ℚ) := by exact_mod_cast hk
    have h1 := hpow1 (k : ℚ) hk1
    have hp0 : (0 : ℚ) < powf (k : ℚ) (1 / 8) := lt_of_lt_of_le one_pos h1
    rw [div_le_iff₀ hp0]
    nlinarith
  · intro k j hk hkj
    unfold VcmKernelRadius
    rw [hexp]
    have hk1 : (1 : ℚ) ≤ (k : ℚ) := by exact_mod_cast hk
    have hkj' : (k : ℚ) ≤ (j : ℚ) := by exact_mod_cast hkj
    have h1k := hpow1 (k : ℚ) hk1
    have hmono := hpowMono (k : ℚ) (j : ℚ) hk1 hkj'
    have hpk : (0 : ℚ) < powf (k : ℚ) (1 / 8) := lt_of_lt_of_le one_pos h1k
    gcongr

/-- Witness for C8: the constant-1 power oracle satisfies the assumptions;
at `r_0 = 0.005 · 200 = 1` the pass-2 radius does not exceed `r_0`. -/
theorem vcmKernelRadius_schedule_witness :
    VcmKernelRadius (fun _ _ => 1) 1 ((2 : ℕ) : ℚ) ≤ 1 :=
  (vcmKernelRadius_schedule (fun _ _ => 1) (fun _ _ => le_refl 1) (fun _ _ _ _ => le_refl 1)
    200 1 (by norm_num) (by with_unfolding_all rfl)).2.1 2 (by norm_num)

/-!  ## Claim C4 — surface reconstruction fails in exactly one case  -/

/-- Claim C4: `CalculateSurfaceParams` returns failure in exactly one case —
when the dot product of the interpolated shading normal and the view
direction is negative and the material is not flagged transparent; for
every other input it returns a valid surface. -/
theorem calculateSurfaceParams_failure_iff (env : MathEnv) (scene : SceneResource)
    (hit : HitParameters) :
    (CalculateSurfaceParams env scene hit).isSome = true ↔
      ¬(Dot (InterpolatedShadingNormal env scene hit) hit.viewDirection < 0 ∧
        (HitMaterial scene hit).flags.transparent = false) := by
  simp only [CalculateSurfaceParams, InterpolatedShadingNormal, HitMaterial]
  rw [apply_ite Option.isSome]
  simp only [Option.isSome_none, Option.isSome_some]
  split_ifs with h
  · simpa using h
  · simpa using h

/-!  ## Claim C2 — the albedo texture lookup  -/

/-- Counterexample to claim C2 as stated: on a valid reconstruction whose
albedo texture samples to `0.04` (inside the linear segment of the sRGB
conversion, where `SrgbToLinearPrecise` is exactly `c / 12.92`), the
returned albedo is the raw sample `0.04` per channel — not
`material.albedo` times the sRGB-to-linear converted sample `1/323`. -/
theorem calculateSurfaceParams_albedo_counterexample :
    (CalculateSurfaceParams demoEnv demoScene demoHit).map SurfaceParameters.albedo =
      some ⟨1 / 25, 1 / 25, 1 / 25⟩ ∧
    (CalculateSurfaceParams demoEnv demoScene demoHit).map SurfaceParameters.albedo ≠
      some ((HitMaterial demoScene demoHit).albedo *
        SrgbToLinearPrecise3 demoEnv
          (demoScene.triangleFloat3 0 (InterpolatedUV demoScene demoHit))) := by
  with_unfolding_all decide

/-- Claim C2 (amended): for every surface reconstruction, the returned
albedo equals `material.albedo` times the raw albedo texture lookup — the
call passes `sRGB = false`, so no sRGB-to-linear conversion is applied — and
the lookup defaults to 1 when no albedo texture is present. -/
theorem calculateSurfaceParams_albedo (env : MathEnv) (scene : SceneResource)
    (hit : HitParameters) (surface : SurfaceParameters)
    (h : CalculateSurfaceParams env scene hit = some surface) :
    surface.albedo = (HitMaterial scene hit).albedo *
      (match (HitMaterial scene hit).albedoTextureIndex with
       | none => Float3.one
       | some idx => scene.triangleFloat3 idx (InterpolatedUV scene hit)) := by
  simp only [CalculateSurfaceParams] at h
  split at h
  · exact absurd h (by simp)
  · rw [Option.some_inj] at h
    subst h
    unfold HitMaterial
    cases hidx : (scene.materials
        (scene.vertexData (scene.indices (3 * hit.primId + 0))).materialIndex).albedoTextureIndex with
    | none => simp [SampleTextureFloat3, hidx]
    | some idx => simp [SampleTextureFloat3, hidx, EnableEWA, InterpolatedUV]

/-- Witness for the amended claim C2 on the concrete scene. -/
theorem calculateSurfaceParams_albedo_witness :
    demoReconstructed.albedo = (HitMaterial demoScene demoHit).albedo *
      (match (HitMaterial demoScene demoHit).albedoTextureIndex with
       | none => Float3.one
       | some idx => demoScene.triangleFloat3 idx (InterpolatedUV demoScene demoHit)) :=
  calculateSurfaceParams_albedo demoEnv demoScene demoHit demoReconstructed
    (by with_unfolding_all rfl)

/-!  ## Light-subpath loop invariants (claims C6 and C7)  -/

/-- The light-subpath loop only appends to the vertex accumulator. -/
theorem lightSubpathLoop_appendOnly (oracle : ℕ → LightIterOracle) (maxPathLength : ℕ)
    (vmWeight vcWeight : ℚ) :
    ∀ (fuel : ℕ) (state : PathState) (acc : List VcmVertex),
      acc <+: LightSubpathLoop oracle maxPathLength vmWeight vcWeight fuel state acc := by
  intro fuel
  induction fuel with
  | zero =>
    intro state acc
    simp [LightSubpathLoop]
  | succ fuel ih =>
    intro state acc
    simp only [LightSubpathLoop]
    split
    · split
      · exact List.prefix_refl acc
      · split
        · exact List.prefix_append acc _
        · exact (List.prefix_append acc _).trans (ih _ _)
    · exact List.prefix_refl acc

/-- Every vertex the light-subpath loop stores has `pathLength ≥ 1` and
`pathLength + 2 < maxPathLength`, provided the incoming state and
accumulator already satisfy them. -/
theorem lightSubpathLoop_mem (oracle : ℕ → LightIterOracle) (maxPathLength : ℕ)
    (vmWeight vcWeight : ℚ) :
    ∀ (fuel : ℕ) (state : PathState) (acc : List VcmVertex),
      1 ≤ state.pathLength →
      (∀ v ∈ acc, 1 ≤ v.pathLength ∧ v.pathLength + 2 < maxPathLength) →
      ∀ v ∈ LightSubpathLoop oracle maxPathLength vmWeight vcWeight fuel state acc,
        1 ≤ v.pathLength ∧ v.pathLength + 2 < maxPathLength := by
  intro fuel
  induction fuel with
  | zero =>
    intro state acc hst hacc
    simpa [LightSubpathLoop] using hacc
  | succ fuel ih =>
    intro state acc hst hacc
    simp only [LightSubpathLoop]
    split
    · rename_i hcond
      split
      · exact hacc
      · rename_i surface hcast
        have haccV : ∀ v ∈ acc ++
            [{ throughput := (LightPathAtHitUpdate surface (-state.direction) state).throughput
               pathLength := (LightPathAtHitUpdate surface (-state.direction) state).pathLength
               dVCM := (LightPathAtHitUpdate surface (-state.direction) state).dVCM
               dVC := (LightPathAtHitUpdate surface (-state.direction) state).dVC
               dVM := (LightPathAtHitUpdate surface (-state.direction) state).dVM
               surface := surface }],
            1 ≤ VcmVertex.pathLength v ∧ VcmVertex.pathLength v + 2 < maxPathLength := by
          intro v hv
          rcases List.mem_append.mp hv with h1 | h2
          · exact hacc v h1
          · have hv2 := List.mem_singleton.mp h2
            subst hv2
            exact ⟨hst, hcond⟩
        split
        · exact haccV
        · rename_i st2 hscatter
          have hst2 : 1 ≤ st2.pathLength := by
            simp only [SampleBsdfScattering] at hscatter
            split at hscatter
            · exact absurd hscatter (by simp)
            · split at hscatter
              · exact absurd hscatter (by simp)
              · rw [Option.some_inj] at hscatter
                subst hscatter
                exact Nat.le_add_left 1 _
          exact ih st2 _ hst2 haccV
    · exact hacc

/-- Every vertex stored after `n` light subpaths satisfies the bounds. -/
theorem lightPhase_mem (oracle : LightPhaseOracle) (maxPathLength : ℕ)
    (vmWeight vcWeight : ℚ) :
    ∀ (n : ℕ), ∀ v ∈ (LightPhase oracle maxPathLength vmWeight vcWeight n).1,
      1 ≤ v.pathLength ∧ v.pathLength + 2 < maxPathLength := by
  intro n
  induction n with
  | zero =>
    intro v hv
    simp [LightPhase] at hv
  | succ n ih =>
    intro v hv
    simp only [LightPhase] at hv
    exact lightSubpathLoop_mem (oracle.iter n) maxPathLength vmWeight vcWeight maxPathLength
      _ _ (le_refl 1) ih v hv

/-- Claim C6: every `VcmVertex` stored into `pathVertices` during a VCM pass
has `1 ≤ pathLength < maxPathLength − 1`: the light-subpath loop only stores
a vertex while `pathLength + 2 < maxPathLength`, and `pathLength` starts
at 1. -/
theorem lightPhase_vertex_pathLength (oracle : LightPhaseOracle) (maxPathLength : ℕ)
    (vmWeight vcWeight : ℚ) (lightPathCount : ℕ) (v : VcmVertex)
    (hv : v ∈ (LightPhase oracle maxPathLength vmWeight vcWeight lightPathCount).1) :
    1 ≤ v.pathLength ∧ v.pathLength < maxPathLength - 1 := by
  obtain ⟨h1, h2⟩ :=
    lightPhase_mem oracle maxPathLength vmWeight vcWeight lightPathCount v hv
  omega

/-- Witness for C6: the single vertex stored by the concrete one-scan pass. -/
theorem lightPhase_vertex_pathLength_witness :
    1 ≤ demoStoredVertex.pathLength ∧ demoStoredVertex.pathLength < 10 - 1 :=
  lightPhase_vertex_pathLength demoLightPhaseOracle 10 1 1 1 demoStoredVertex
    (by with_unfolding_all decide)

/-- After `n` light subpaths, `pathEnds` has `n` entries, is monotonically
non-decreasing, and each entry is bounded by the vertex count, the last one
reaching it. -/
theorem lightPhase_pathEnds_aux (oracle : LightPhaseOracle) (maxPathLength : ℕ)
    (vmWeight vcWeight : ℚ) :
    ∀ n : ℕ,
      (LightPhase oracle maxPathLength vmWeight vcWeight n).2.length = n ∧
      List.Pairwise (· ≤ ·) (LightPhase oracle maxPathLength vmWeight vcWeight n).2 ∧
      (∀ e ∈ (LightPhase oracle maxPathLength vmWeight vcWeight n).2,
        e ≤ (LightPhase oracle maxPathLength vmWeight vcWeight n).1.length) ∧
      (0 < n → (LightPhase oracle maxPathLength vmWeight vcWeight n).2.getLast? =
        some (LightPhase oracle maxPathLength vmWeight vcWeight n).1.length) := by
  intro n
  induction n with
  | zero =>
    refine ⟨rfl, ?_, ?_, ?_⟩
    · simp [LightPhase]
    · simp [LightPhase]
    · omega
  | succ n ih =>
    obtain ⟨ihlen, ihpw, ihbd, ihlast⟩ := ih
    have hlen : (LightPhase oracle maxPathLength vmWeight vcWeight n).1.length ≤
        (LightSubpathLoop (oracle.iter n) maxPathLength vmWeight vcWeight maxPathLength
          (GenerateLightSample (oracle.emission n) vcWeight)
          (LightPhase oracle maxPathLength vmWeight vcWeight n).1).length :=
      (lightSubpathLoop_appendOnly (oracle.iter n) maxPathLength vmWeight vcWeight
        maxPathLength _ _).length_le
    simp only [LightPhase]
    refine ⟨?_, ?_, ?_, ?_⟩
    · simp [ihlen]
    · refine List.pairwise_append.mpr ⟨ihpw, List.pairwise_singleton _ _, ?_⟩
      intro a ha b hb
      have hb1 := List.mem_singleton.mp hb
      subst hb1
      exact le_trans (ihbd a ha) hlen
    · intro e he
      rcases List.mem_append.mp he with h1 | h2
      · exact le_trans (ihbd e h1) hlen
      · have h3 := List.mem_singleton.mp h2
        subst h3
        exact le_refl _
    · intro _
      exact List.getLast?_concat _

/-- Claim C7: after the light-subpath phase, `pathEnds` has exactly
`lightPathCount = width·height` entries, the entries are monotonically
non-decreasing, each is an exclusive upper bound into `pathVertices`
(`pathEnds[i] ≤ pathVertices.Length()`), and the last entry equals the
vertex count. -/
theorem lightPhase_pathEnds (oracle : LightPhaseOracle) (maxPathLength : ℕ)
    (vmWeight vcWeight : ℚ) (width height : ℕ) :
    (LightPhase oracle maxPathLength vmWeight vcWeight (width * height)).2.length =
      width * height ∧
    List.Pairwise (· ≤ ·)
      (LightPhase oracle maxPathLength vmWeight vcWeight (width * height)).2 ∧
    (∀ e ∈ (LightPhase oracle maxPathLength vmWeight vcWeight (width * height)).2,
      e ≤ (LightPhase oracle maxPathLength vmWeight vcWeight (width * height)).1.length) ∧
    (0 < width * height →
      (LightPhase oracle maxPathLength vmWeight vcWeight (width * height)).2.getLast? =
        some (LightPhase oracle maxPathLength vmWeight vcWeight (width * height)).1.length) :=
  lightPhase_pathEnds_aux oracle maxPathLength vmWeight vcWeight (width * height)

/-- Witness for C7 on the concrete one-scan pass (a 1×1 image). -/
theorem lightPhase_pathEnds_witness :
    (LightPhase demoLightPhaseOracle 10 1 1 (1 * 1)).2.length = 1 * 1 ∧
    (LightPhase demoLightPhaseOracle 10 1 1 (1 * 1)).2.getLast? =
      some (LightPhase demoLightPhaseOracle 10 1 1 (1 * 1)).1.length :=
  ⟨(lightPhase_pathEnds demoLightPhaseOracle 10 1 1 1 1).1,
   (lightPhase_pathEnds demoLightPhaseOracle 10 1 1 1 1).2.2.2 (by norm_num)⟩

end Selas
